import Mathlib

/-!
Shallow embedding of `uxarray/io/_ugrid.py`: UGRID convention normalization
for unstructured-grid datasets. Datasets are modelled as ordered association
lists of named variables; each variable carries its ordered dimension names,
an element dtype, its data as a flat list of elements, and a string-keyed
attribute map. Python exceptions are modelled by an explicit error type and
`Except` results.
-/

set_option autoImplicit false

namespace UGrid

/-- Element dtypes that occur for connectivity and coordinate arrays. -/
inductive DType where
  | int32
  | int64
  | float64
  deriving DecidableEq, Repr

/-- Array elements: an integral numeric value, or floating NaN. Non-integral
float values are a data-quality fault the source assumes pre-validated, so
they are not represented. -/
inductive Elem where
  | num (z : Int)
  | nan
  deriving DecidableEq, Repr

/-- Attribute values: reference strings (whitespace-separated variable names),
numbers (ints and integral floats compare numerically in Python, so one
constructor suffices), or floating NaN. -/
inductive AttrVal where
  | str (s : String)
  | num (z : Int)
  | nan
  deriving DecidableEq, Repr

/-- A named array container: ordered dimension names, element dtype, flat
data, metadata attributes. -/
structure Var where
  dims : List String
  dtype : DType
  data : List Elem
  attrs : List (String × AttrVal)
  deriving DecidableEq, Repr

/-- A dataset: ordered association list of named variables plus the subset of
names marked as coordinate variables (xarray keeps coordinates inside the
same variable mapping; `coords` is only the marker set). -/
structure Dataset where
  vars : List (String × Var)
  coords : List String
  deriving DecidableEq, Repr

/-- Python-level error conditions. The first four model the exceptions the
source can actually raise; the last two model the explicit error taxonomy the
spec prescribes (`TopologyNotFound`, `MalformedCoordinateReference`). -/
inductive PyErr where
  | indexError
  | keyError (name : String)
  | valueError (msg : String)
  | attributeError (name : String)
  | topologyNotFound
  | malformedCoordinateReference
  deriving DecidableEq, Repr

/-- Attribute lookup on a variable (Python `variable.attrs.get(key)`). -/
def lookupAttr (v : Var) (key : String) : Option AttrVal :=
  (v.attrs.find? (fun p => p.1 == key)).map Prod.snd

/-- Variable lookup by name, coordinates included (xarray getitem and
`name in dataset` both see coordinate variables). -/
def getVar (ds : Dataset) (name : String) : Option Var :=
  (ds.vars.find? (fun p => p.1 == name)).map Prod.snd

/-- Python `name in dataset`. -/
def hasVar (ds : Dataset) (name : String) : Bool :=
  ds.vars.any (fun p => p.1 == name)

/-- Whether a name occurs as a dimension of some variable. -/
def isDim (ds : Dataset) (name : String) : Bool :=
  ds.vars.any (fun p => p.2.dims.contains name)

/-- The data variables of a dataset: every variable not marked as a
coordinate (xarray `dataset.data_vars`, which `filter_by_attrs` iterates). -/
def dataVars (ds : Dataset) : List (String × Var) :=
  ds.vars.filter (fun p => !ds.coords.contains p.1)

/-- `filter_by_attrs(key=value)`: names of data variables whose attribute
`key` is present and equals the string `val`, in dataset order. -/
def filterByAttrEq (ds : Dataset) (key val : String) : List String :=
  (dataVars ds).filterMap
    (fun p => if lookupAttr p.2 key == some (AttrVal.str val) then some p.1 else none)

/-- `filter_by_attrs(key=lambda v: v is not None)`: names of data variables
carrying attribute `key` at all, in dataset order. -/
def filterByAttrPresent (ds : Dataset) (key : String) : List String :=
  (dataVars ds).filterMap
    (fun p => if (lookupAttr p.2 key).isSome then some p.1 else none)

/-- Source `_validate_minimum_ugrid` (lines 135-143), with the boolean
grouping exactly as Python parses it: `A or (B and C)` since `and` binds
tighter than `or`. In Lean `&&` likewise binds tighter than `||`, so the
expression below is a verbatim transcription of the source. -/
def validate_minimum_ugrid (grid_ds : Dataset) : Bool :=
  (hasVar grid_ds "node_lon" && hasVar grid_ds "node_lat")
    || (hasVar grid_ds "node_x" && hasVar grid_ds "node_y" && hasVar grid_ds "node_z")
      && hasVar grid_ds "face_node_connectivity"

/-- Source `_encode_ugrid` (lines 60-69): returns the dataset unchanged. -/
def encode_ugrid (ds : Dataset) : Dataset :=
  ds

/-- Source `_is_ugrid` (lines 115-132): four attribute filters, true iff all
four result sets are nonempty. -/
def is_ugrid (ds : Dataset) : Bool :=
  let node_coords_dv := filterByAttrPresent ds "node_coordinates"
  let face_conn_dv := filterByAttrPresent ds "face_node_connectivity"
  let topo_dim_dv := filterByAttrPresent ds "topology_dimension"
  let mesh_topo_dv := filterByAttrEq ds "cf_role" "mesh_topology"
  if mesh_topo_dv.length != 0
      && topo_dim_dv.length != 0
      && face_conn_dv.length != 0
      && node_coords_dv.length != 0 then
    true
  else
    false

/-- Helper for Python `str.split()`: structural recursion over the character
list, splitting on whitespace runs and dropping empty pieces. -/
def splitChars : List Char → List Char → List String
  | [], acc => if acc.isEmpty then [] else [String.mk acc.reverse]
  | c :: cs, acc =>
    if c.isWhitespace then
      (if acc.isEmpty then [] else [String.mk acc.reverse]) ++ splitChars cs []
    else
      splitChars cs (c :: acc)

/-- Python `str.split()` with no argument: split on whitespace runs. -/
def pySplit (s : String) : List String :=
  splitChars s.data []

/-- xarray `rename({old: new})` for a single entry: renames the variable of
that name and/or the dimension of that name everywhere; raises `ValueError`
when the name is neither a variable nor a dimension. -/
def renameOne (ds : Dataset) (old new : String) : Except PyErr Dataset :=
  if hasVar ds old || isDim ds old then
    Except.ok
      { vars := ds.vars.map (fun p =>
          (if p.1 == old then new else p.1,
           { p.2 with dims := p.2.dims.map (fun d => if d == old then new else d) })),
        coords := ds.coords.map (fun c => if c == old then new else c) }
  else
    Except.error (PyErr.valueError old)

/-- Replace the value of a key in an association list, or append the pair at
the end when the key is absent (Python dict assignment). -/
def setPairs : List (String × AttrVal) → String → AttrVal → List (String × AttrVal)
  | [], key, a => [(key, a)]
  | p :: ps, key, a =>
    if p.1 == key then (key, a) :: ps else p :: setPairs ps key a

/-- Set one attribute on a variable (Python `var.attrs[key] = value`). -/
def setAttr (v : Var) (key : String) (a : AttrVal) : Var :=
  { v with attrs := setPairs v.attrs key a }

/-- Apply a function to the variable of the given name, in place. -/
def updateVar (ds : Dataset) (name : String) (f : Var → Var) : Dataset :=
  { ds with vars := ds.vars.map (fun p => if p.1 == name then (p.1, f p.2) else p) }

/-- Modelled from the spec: the canonical integer dtype `INT_DTYPE` lives in
`uxarray.constants`, which is not under src/; the spec describes it as a
fixed-width signed integer type used consistently across the library. -/
def INT_DTYPE : DType := DType.int64

/-- Modelled from the spec: the canonical sentinel `INT_FILL_VALUE` lives in
`uxarray.constants`, which is not under src/; the spec only requires a single
fixed canonical sentinel value, taken here as the minimum of the canonical
signed 64-bit dtype. -/
def INT_FILL_VALUE : Int := -(2 ^ 63)

/-- Whether an element equals the detected sentinel, NaN compared by
sameness-of-NaN rather than numeric equality. -/
def elemMatchesFill : Option AttrVal → Elem → Bool
  | some AttrVal.nan, Elem.nan => true
  | some (AttrVal.num z), Elem.num w => z == w
  | _, _ => false

/-- Cast an element to the canonical integer dtype. A non-sentinel NaN is a
data-quality fault the spec leaves out of scope; its image is arbitrary. -/
def castElem : Elem → Elem
  | Elem.num z => Elem.num z
  | Elem.nan => Elem.num 0

/-- Modelled from the spec: `_replace_fill_values` lives in
`uxarray.grid.connectivity`, which is not under src/. Per the spec, every
element equal to the detected sentinel becomes the new fill value and all
other elements are cast to the new integer dtype. -/
def replace_fill_values (grid_var : List Elem) (original_fill : Option AttrVal)
    (new_fill : Int) (_new_dtype : DType) : List Elem :=
  grid_var.map (fun e =>
    if elemMatchesFill original_fill e then Elem.num new_fill else castElem e)

/-- Source lines 90-95: detect the current sentinel of the connectivity
variable: the `_FillValue` attribute when present, else NaN when the data
contains NaN anywhere, else none. -/
def detectOriginalFV (v : Var) : Option AttrVal :=
  match lookupAttr v "_FillValue" with
  | some a => some a
  | none =>
    if v.data.any (fun e => e == Elem.nan) then some AttrVal.nan else none

/-- Python `original_fv != INT_FILL_VALUE` where `original_fv` is `None`, a
number, NaN, or another attribute value: `None` and NaN and strings are
always unequal to an integer; numbers compare numerically. -/
def fvNeInt : Option AttrVal → Int → Bool
  | none, _ => true
  | some AttrVal.nan, _ => true
  | some (AttrVal.str _), _ => true
  | some (AttrVal.num z), k => z != k

/-- Source `_standardize_fill_values` (lines 72-112): detect the current
sentinel; when the dtype or the sentinel is non-canonical, remap the data and
rewrite the `_FillValue` attribute; otherwise return the dataset unchanged.
A missing connectivity variable raises `KeyError` at line 87. -/
def standardize_fill_values (ds : Dataset) : Except PyErr Dataset :=
  match getVar ds "face_node_connectivity" with
  | none => Except.error (PyErr.keyError "face_node_connectivity")
  | some v =>
    if v.dtype != INT_DTYPE || fvNeInt (detectOriginalFV v) INT_FILL_VALUE then
      Except.ok (updateVar ds "face_node_connectivity" (fun w =>
        setAttr { w with
            data := replace_fill_values v.data (detectOriginalFV v)
              INT_FILL_VALUE INT_DTYPE,
            dtype := INT_DTYPE }
          "_FillValue" (AttrVal.num INT_FILL_VALUE)))
    else
      Except.ok ds

/-- `Option` to `Except` with an explicit error. -/
def orErr {α : Type} : Option α → PyErr → Except PyErr α
  | some a, _ => Except.ok a
  | none, e => Except.error e

/-- Read a string-valued attribute of a variable; Python raises
`AttributeError` when the attribute is absent (attribute access) or when the
value has no `split` method (non-string). -/
def getAttrStr (v : Var) (key : String) : Except PyErr String :=
  match lookupAttr v key with
  | some (AttrVal.str s) => Except.ok s
  | _ => Except.error (PyErr.attributeError key)

/-- Python dict assignment `d[k] = v` on an insertion-ordered dict held as an
association list. -/
def dictInsert (d : List (String × String)) (k v : String) : List (String × String) :=
  if d.any (fun p => p.1 == k) then
    d.map (fun p => if p.1 == k then (k, v) else p)
  else
    d ++ [(k, v)]

/-- Python `set_coords(names)` (line 47): raises `ValueError` when any of the
names is not a variable of the dataset; otherwise adds them to the coordinate
marker set. -/
def setCoords (ds : Dataset) (names : List String) : Except PyErr Dataset :=
  if names.all (fun n => hasVar ds n) then
    Except.ok { ds with
      coords := names.foldl (fun cs n => if cs.contains n then cs else cs ++ [n]) ds.coords }
  else
    Except.error (PyErr.valueError "set_coords")

/-- Source `_read_ugrid` (lines 7-57), line by line. Each fallible Python
step is made explicit: line 19 takes element 0 of the attribute-filter
result (IndexError on empty); getitem on a missing name is KeyError; rename
of an unknown name and `set_coords` of a missing name are ValueError. The
dimension map is populated at lines 53-55, after all renaming. -/
def read_ugrid (ds0 : Dataset) : Except PyErr (Dataset × List (String × String)) := do
  -- line 19
  let base_xarray_var ← orErr (filterByAttrEq ds0 "cf_role" "mesh_topology").head?
    PyErr.indexError
  -- line 22
  let ds1 ← renameOne ds0 base_xarray_var "Mesh2"
  -- line 25
  let mesh2 ← orErr (getVar ds1 "Mesh2") (PyErr.keyError "Mesh2")
  let ncAttr ← getAttrStr mesh2 "node_coordinates"
  let coord_names := pySplit ncAttr
  -- lines 26-29
  let ds2 ←
    match coord_names with
    | [c0] => renameOne ds1 c0 "node_lon"
    | [c0, c1] => do
      let d ← renameOne ds1 c0 "node_lon"
      renameOne d c1 "node_lat"
    | _ => Except.ok ds1
  -- line 31
  let nodeLon ← orErr (getVar ds2 "node_lon") (PyErr.keyError "node_lon")
  let coord_dim0 ← orErr nodeLon.dims.head? PyErr.indexError
  -- line 33
  let ds3 ← renameOne ds2 coord_dim0 "n_node"
  -- line 35
  let mesh2b ← orErr (getVar ds3 "Mesh2") (PyErr.keyError "Mesh2")
  let fnAttr ← getAttrStr mesh2b "face_node_connectivity"
  -- line 37
  let face_node_name ← orErr (pySplit fnAttr).head? PyErr.indexError
  -- line 38
  let _ ← orErr (getVar ds3 face_node_name) (PyErr.keyError face_node_name)
  let ds4 ← renameOne ds3 face_node_name "face_node_connectivity"
  -- lines 40-45
  let fnc ← orErr (getVar ds4 "face_node_connectivity")
    (PyErr.keyError "face_node_connectivity")
  let fncDims ←
    match fnc.dims with
    | d0 :: d1 :: _ => Except.ok (d0, d1)
    | _ => Except.error PyErr.indexError
  let ds5 ← renameOne ds4 fncDims.1 "n_face"
  let ds6 ← renameOne ds5 fncDims.2 "n_max_face_nodes"
  -- line 47
  let ds7 ← setCoords ds6 ["node_lon", "node_lat"]
  -- line 50
  let ds8 ← standardize_fill_values ds7
  -- lines 53-55: the connectivity dims are read back AFTER renaming
  let fncFinal ← orErr (getVar ds8 "face_node_connectivity")
    (PyErr.keyError "face_node_connectivity")
  let sourceDims ←
    match fncFinal.dims with
    | d0 :: d1 :: _ => Except.ok (d0, d1)
    | _ => Except.error PyErr.indexError
  let source_dims_dict :=
    dictInsert (dictInsert (dictInsert [] coord_dim0 "n_node")
      sourceDims.1 "n_face") sourceDims.2 "n_max_face_nodes"
  return (ds8, source_dims_dict)

/-! ### Concrete datasets used as inputs to the theorems -/

/-- A variable with no dimensions, data or attributes. -/
def emptyVar : Var :=
  { dims := [], dtype := DType.int64, data := [], attrs := [] }

/-- A mesh-topology marker variable referencing coordinate variables `nc`
(whitespace-separated) and connectivity variable `fnc`. -/
def topoVar (nc : String) : Var :=
  { dims := [], dtype := DType.int32, data := [],
    attrs := [("cf_role", AttrVal.str "mesh_topology"),
              ("topology_dimension", AttrVal.num 2),
              ("node_coordinates", AttrVal.str nc),
              ("face_node_connectivity", AttrVal.str "fnc")] }

/-- A coordinate variable over dimension `nNodes`. -/
def coordVar : Var :=
  { dims := ["nNodes"], dtype := DType.float64,
    data := [Elem.num 0, Elem.num 1, Elem.num 2], attrs := [] }

/-- A connectivity variable already in canonical form: dims
`(nFaces, nMaxNodes)`, canonical integer dtype, canonical fill value. -/
def fncCanonical : Var :=
  { dims := ["nFaces", "nMaxNodes"], dtype := INT_DTYPE,
    data := [Elem.num 0, Elem.num 1, Elem.num 2, Elem.num INT_FILL_VALUE],
    attrs := [("_FillValue", AttrVal.num INT_FILL_VALUE)] }

/-- A well-formed two-coordinate input dataset: topology variable `Mesh2d`
with `node_coordinates = "x y"`, coordinates `x`, `y` over `nNodes`, and
connectivity `fnc` over `(nFaces, nMaxNodes)`. -/
def sampleDs : Dataset :=
  { vars := [("Mesh2d", topoVar "x y"), ("x", coordVar), ("y", coordVar),
             ("fnc", fncCanonical)],
    coords := [] }

/-- A dataset containing only canonical `node_lon` and `node_lat`, with no
connectivity variable. -/
def lonlatOnlyDs : Dataset :=
  { vars := [("node_lon", coordVar), ("node_lat", coordVar)], coords := [] }

/-- A dataset with one variable carrying no attributes at all, so no variable
is tagged `cf_role = "mesh_topology"`. -/
def noTopoDs : Dataset :=
  { vars := [("a", emptyVar)], coords := [] }

/-- A dataset whose topology variable names three coordinate variables. -/
def threeNamesDs : Dataset :=
  { vars := [("Mesh2d", topoVar "a b c"), ("a", coordVar), ("b", coordVar),
             ("c", coordVar), ("fnc", fncCanonical)],
    coords := [] }

/-- A dataset whose topology variable names a single coordinate variable
(1D coordinate representation). -/
def oneNameDs : Dataset :=
  { vars := [("Mesh2d", topoVar "xc"), ("xc", coordVar), ("fnc", fncCanonical)],
    coords := [] }

/-- A dataset holding just a canonical connectivity variable, as it stands
right before fill-value standardization. -/
def connOnlyDs : Dataset :=
  { vars := [("face_node_connectivity", fncCanonical)], coords := [] }

/-! ### Helper definitions and lemmas for the general claims -/

/-- Dtype consistency, which numpy guarantees: an array whose dtype is not
floating-point cannot hold NaN. -/
def wellTyped (v : Var) : Bool :=
  v.dtype == DType.float64 || !(v.data.contains Elem.nan)

/-- Sentinel detection as the spec words it: the `_FillValue` attribute when
present; else NaN when the dtype is floating-point and the data contains NaN
anywhere; else none. Stated from the spec, to be compared with
`detectOriginalFV`, which is stated from the source. -/
def detectSentinelSpec (v : Var) : Option AttrVal :=
  match lookupAttr v "_FillValue" with
  | some a => some a
  | none =>
    if v.dtype == DType.float64 && v.data.contains Elem.nan then
      some AttrVal.nan
    else
      none

theorem any_nan_eq_contains (l : List Elem) :
    (l.any (fun e => e == Elem.nan)) = l.contains Elem.nan := by
  induction l with
  | nil => rfl
  | cons x xs ih =>
    simp only [List.any_cons, List.contains_cons, ih]
    congr 1
    cases x <;> rfl

theorem boolIfTrueFalse (b : Bool) : (if b then true else false) = b := by
  cases b <;> rfl

theorem filterPresent_length_bne (ds : Dataset) (key : String) :
    (((filterByAttrPresent ds key).length != 0) = true) ↔
      ∃ p ∈ dataVars ds, (lookupAttr p.2 key).isSome = true := by
  rw [bne_iff_ne, ne_eq, List.length_eq_zero]
  unfold filterByAttrPresent
  rw [List.filterMap_eq_nil_iff]
  push_neg
  constructor
  · rintro ⟨p, hp, hne⟩
    refine ⟨p, hp, ?_⟩
    cases hs : (lookupAttr p.2 key).isSome with
    | true => rfl
    | false => simp [hs] at hne
  · rintro ⟨p, hp, hs⟩
    exact ⟨p, hp, by simp [hs]⟩

theorem filterEq_length_bne (ds : Dataset) (key val : String) :
    (((filterByAttrEq ds key val).length != 0) = true) ↔
      ∃ p ∈ dataVars ds, lookupAttr p.2 key = some (AttrVal.str val) := by
  rw [bne_iff_ne, ne_eq, List.length_eq_zero]
  unfold filterByAttrEq
  rw [List.filterMap_eq_nil_iff]
  push_neg
  constructor
  · rintro ⟨p, hp, hne⟩
    refine ⟨p, hp, ?_⟩
    cases hs : (lookupAttr p.2 key == some (AttrVal.str val)) with
    | true => exact eq_of_beq hs
    | false => simp [hs] at hne
  · rintro ⟨p, hp, hs⟩
    exact ⟨p, hp, by simp [hs]⟩

theorem find_setPairs (l : List (String × AttrVal)) (key : String) (a : AttrVal) :
    (setPairs l key a).find? (fun p => p.1 == key) = some (key, a) := by
  induction l with
  | nil => simp [setPairs, List.find?]
  | cons p ps ih =>
    unfold setPairs
    cases hp : (p.1 == key) with
    | true => simp [List.find?]
    | false => simp [List.find?, hp, ih]

theorem lookupAttr_setAttr (v : Var) (key : String) (a : AttrVal) :
    lookupAttr (setAttr v key a) key = some a := by
  unfold lookupAttr setAttr
  rw [find_setPairs]
  rfl

theorem findMap_update (l : List (String × Var)) (name : String) (f : Var → Var)
    (v : Var) (h : (l.find? (fun p => p.1 == name)).map Prod.snd = some v) :
    ((l.map (fun p => if p.1 == name then (p.1, f p.2) else p)).find?
        (fun p => p.1 == name)).map Prod.snd = some (f v) := by
  induction l with
  | nil => simp [List.find?] at h
  | cons p ps ih =>
    cases hp : (p.1 == name) with
    | true =>
      rw [@List.find?_cons_of_pos _ (fun q => q.1 == name) p ps hp] at h
      rw [List.map_cons, if_pos hp,
        @List.find?_cons_of_pos _ (fun q => q.1 == name) (p.1, f p.2) _ hp]
      simp only [Option.map_some', Option.some.injEq] at h ⊢
      rw [h]
    | false =>
      rw [@List.find?_cons_of_neg _ (fun q => q.1 == name) p ps (by simp [hp])] at h
      rw [List.map_cons, if_neg (by simp [hp]),
        @List.find?_cons_of_neg _ (fun q => q.1 == name) p _ (by simp [hp])]
      exact ih h

theorem getVar_updateVar (ds : Dataset) (name : String) (f : Var → Var)
    (v : Var) (h : getVar ds name = some v) :
    getVar (updateVar ds name f) name = some (f v) := by
  unfold getVar updateVar at *
  exact findMap_update ds.vars name f v h

/-! ### Claims -/

/-- C1: the claim says `_validate_minimum_ugrid` is false whenever the
canonical connectivity variable is absent, even with `node_lon` and
`node_lat` present. The source groups the boolean as
`lonlat or (xyz and connectivity)` (Python `and` binds tighter than `or`),
so a dataset with only `node_lon` and `node_lat` and no connectivity is
accepted: the code returns true where the claim (and the function's own
docstring, which demands coordinates AND connectivity) requires false. -/
theorem C1_lonlat_without_connectivity_accepted :
    validate_minimum_ugrid lonlatOnlyDs = true ∧
      hasVar lonlatOnlyDs "face_node_connectivity" = false :=
  ⟨rfl, rfl⟩

/-- C2: the claim says every entry of the returned dimension map sends an
original (pre-rename) dimension name to its canonical name. The source
populates the map at lines 53-55, after the connectivity dimensions have
already been renamed, so on `sampleDs` (original dims `nNodes`, `nFaces`,
`nMaxNodes`) the two connectivity entries have the already-canonical names
`n_face` and `n_max_face_nodes` as keys instead of `nFaces` and `nMaxNodes`;
only the node entry keeps its original key. -/
theorem C2_dimension_map_keys_already_renamed :
    (read_ugrid sampleDs).map Prod.snd =
      Except.ok [("nNodes", "n_node"), ("n_face", "n_face"),
                 ("n_max_face_nodes", "n_max_face_nodes")] :=
  rfl

/-- C3: the claim says a dataset with no `cf_role = "mesh_topology"` variable
makes `_read_ugrid` signal an explicit TopologyNotFound condition. The source
instead takes element `[0]` of the (empty) filter result at line 19, leaking
a low-level IndexError. -/
theorem C3_missing_topology_leaks_index_fault :
    read_ugrid noTopoDs = Except.error PyErr.indexError :=
  rfl

/-- C4: the claim says a `node_coordinates` attribute splitting into three
names makes `_read_ugrid` fail with an explicit MalformedCoordinateReference
validation error. The source instead silently skips both rename branches
(its `if/elif` has no `else`) and then faults with an unrelated
KeyError("node_lon") at line 31. -/
theorem C4_three_coordinate_names_leak_key_fault :
    read_ugrid threeNamesDs = Except.error (PyErr.keyError "node_lon") :=
  rfl

/-- C5: the claim says a single-name `node_coordinates` attribute lets
`_read_ugrid` complete successfully, renaming that coordinate to `node_lon`.
The source takes the one-name rename branch but then unconditionally calls
`set_coords(["node_lon", "node_lat"])` at line 47, which raises ValueError
because no `node_lat` variable exists, so normalization never completes. -/
theorem C5_single_coordinate_name_faults_in_set_coords :
    read_ugrid oneNameDs = Except.error (PyErr.valueError "set_coords") :=
  rfl

/-- C9: the encode step `_encode_ugrid` returns its input dataset unchanged:
it is the identity, performing no renaming, remapping or schema inversion. -/
theorem C9_encode_identity : ∀ ds : Dataset, encode_ugrid ds = ds :=
  fun _ => rfl

/-- C6: for every connectivity array (with the numpy invariant that a
non-float array holds no NaN), `_standardize_fill_values` detects the current
sentinel in the claimed priority order: a `_FillValue` attribute when
present; else NaN when the dtype is floating-point and the data contains NaN
anywhere; else none. The source-side detection equals the spec-side rule. -/
theorem C6_detect_sentinel_priority (v : Var) (h : wellTyped v = true) :
    detectOriginalFV v = detectSentinelSpec v := by
  unfold detectOriginalFV detectSentinelSpec
  cases hl : lookupAttr v "_FillValue" with
  | some a => rfl
  | none =>
    unfold wellTyped at h
    rw [any_nan_eq_contains]
    cases hd : (v.dtype == DType.float64) with
    | true => simp [hd]
    | false =>
      rw [hd] at h
      simp only [Bool.false_or, Bool.not_eq_true'] at h
      simp [hd]
      simp at h
      exact h

/-- A float-dtype connectivity variable holding a NaN sentinel and carrying
no `_FillValue` attribute. -/
def fncFloatNaN : Var :=
  { dims := ["nFaces", "nMaxNodes"], dtype := DType.float64,
    data := [Elem.num 0, Elem.nan, Elem.num 2], attrs := [] }

theorem C6_witness :
    wellTyped fncFloatNaN = true ∧
      detectOriginalFV fncFloatNaN = detectSentinelSpec fncFloatNaN :=
  ⟨rfl, C6_detect_sentinel_priority fncFloatNaN rfl⟩

/-- C7: when the connectivity variable already has the canonical integer
dtype and its detected sentinel already equals the canonical sentinel,
`_standardize_fill_values` is a no-op: the dataset is returned unchanged, so
the data and the `_FillValue` attribute are untouched and no remap runs. -/
theorem C7_standardize_noop (ds : Dataset) (v : Var)
    (hget : getVar ds "face_node_connectivity" = some v)
    (hdt : v.dtype = INT_DTYPE)
    (hfv : detectOriginalFV v = some (AttrVal.num INT_FILL_VALUE)) :
    standardize_fill_values ds = Except.ok ds := by
  simp [standardize_fill_values, hget, hdt, hfv, fvNeInt]

theorem C7_witness :
    getVar connOnlyDs "face_node_connectivity" = some fncCanonical ∧
      fncCanonical.dtype = INT_DTYPE ∧
      detectOriginalFV fncCanonical = some (AttrVal.num INT_FILL_VALUE) ∧
      standardize_fill_values connOnlyDs = Except.ok connOnlyDs :=
  ⟨rfl, rfl, rfl, C7_standardize_noop connOnlyDs fncCanonical rfl rfl rfl⟩

/-- C8: `_is_ugrid` returns true iff the dataset has at least one data
variable with `cf_role = "mesh_topology"`, at least one with a present
`topology_dimension` attribute, at least one with a present
`face_node_connectivity` attribute, and at least one with a present
`node_coordinates` attribute, each condition possibly satisfied by a
different variable; in particular it is false when no variable carries any
attributes. -/
theorem C8_is_ugrid_iff (ds : Dataset) :
    is_ugrid ds = true ↔
      ((∃ p ∈ dataVars ds, lookupAttr p.2 "cf_role" = some (AttrVal.str "mesh_topology")) ∧
       (∃ p ∈ dataVars ds, (lookupAttr p.2 "topology_dimension").isSome = true) ∧
       (∃ p ∈ dataVars ds, (lookupAttr p.2 "face_node_connectivity").isSome = true) ∧
       (∃ p ∈ dataVars ds, (lookupAttr p.2 "node_coordinates").isSome = true)) := by
  simp only [is_ugrid]
  rw [boolIfTrueFalse]
  simp only [Bool.and_eq_true]
  rw [filterEq_length_bne, filterPresent_length_bne, filterPresent_length_bne,
    filterPresent_length_bne]
  tauto

/-- C10: every dataset on which `_standardize_fill_values` succeeds comes out
with a `face_node_connectivity` variable whose `_FillValue` attribute equals
the canonical sentinel: the no-op branch is only reachable when the attribute
already equals it, and the remap branch rewrites it. -/
theorem C10_fill_value_invariant (ds dsOut : Dataset)
    (h : standardize_fill_values ds = Except.ok dsOut) :
    ∃ v, getVar dsOut "face_node_connectivity" = some v ∧
      lookupAttr v "_FillValue" = some (AttrVal.num INT_FILL_VALUE) := by
  unfold standardize_fill_values at h
  split at h
  · exact Except.noConfusion h
  · rename_i v hget
    split at h
    · rename_i hc
      injection h with h2
      subst h2
      exact ⟨_, getVar_updateVar ds "face_node_connectivity" _ v hget,
        lookupAttr_setAttr _ _ _⟩
    · rename_i hc
      injection h with h2
      subst h2
      simp only [Bool.or_eq_true, not_or, Bool.not_eq_true] at hc
      obtain ⟨_, hsent⟩ := hc
      have hattr : lookupAttr v "_FillValue" = some (AttrVal.num INT_FILL_VALUE) := by
        unfold detectOriginalFV at hsent
        cases hl : lookupAttr v "_FillValue" with
        | none =>
          rw [hl] at hsent
          cases hnan : v.data.any (fun e => e == Elem.nan) with
          | true => rw [hnan] at hsent; simp [fvNeInt] at hsent
          | false => rw [hnan] at hsent; simp [fvNeInt] at hsent
        | some a =>
          rw [hl] at hsent
          cases a with
          | str s => simp [fvNeInt] at hsent
          | nan => simp [fvNeInt] at hsent
          | num z =>
            simp only [fvNeInt, bne_iff_ne, ne_eq] at hsent
            have hz : z = INT_FILL_VALUE := by
              by_contra hne
              simp [hne] at hsent
            rw [hz]
      exact ⟨v, hget, hattr⟩

theorem C10_witness :
    standardize_fill_values connOnlyDs = Except.ok connOnlyDs ∧
      (∃ v, getVar connOnlyDs "face_node_connectivity" = some v ∧
        lookupAttr v "_FillValue" = some (AttrVal.num INT_FILL_VALUE)) :=
  ⟨rfl, C10_fill_value_invariant connOnlyDs connOnlyDs rfl⟩

end UGrid
